import Mathlib

/-!
Verification of the OpenVPN client event model
(`src/openvpn/client/clievent.hpp`).

The header defines a closed enum `Type` of client event kinds, a name
table `event_name`, a polymorphic event hierarchy rooted at `Base`
(with `id`, `name`, `is_error`, `render`, `connected_cast`), an
`Empty`-payload family of subclasses, a `Connected` subclass carrying
nine text fields, and a `ReasonBase` family carrying one `reason`
string.  We embed it shallowly: the enum becomes an inductive type,
the class hierarchy becomes a tagged union, virtual `render` becomes a
match on the tag, and the unchecked downcast `connected_cast` becomes
an `Option`-returning narrowing.
-/

namespace ClientEvent

/-- The `enum Type` of `clievent.hpp` (the C++ name `Type` is reserved in
Lean, hence the prime).  The enumerator `N_TYPES` (value 25) is modelled
separately as the constant `N_TYPES` below, since it is a count, not a kind. -/
inductive Type' where
  | DISCONNECTED
  | CONNECTED
  | RECONNECTING
  | RESOLVE
  | WAIT
  | WAIT_PROXY
  | CONNECTING
  | GET_CONFIG
  | ASSIGN_IP
  | ADD_ROUTES
  | PAUSE
  | RESUME
  | AUTH_FAILED
  | CERT_VERIFY_FAIL
  | CLIENT_HALT
  | CLIENT_RESTART
  | CONNECTION_TIMEOUT
  | INACTIVE_TIMEOUT
  | DYNAMIC_CHALLENGE
  | PROXY_NEED_CREDS
  | PROXY_ERROR
  | TUN_SETUP_FAILED
  | TUN_IFACE_CREATE
  | EPKI_ERROR
  | EPKI_INVALID_ALIAS
  deriving DecidableEq, Repr

/-- Ordinal value of each enumerator, exactly as assigned by the C++ enum
(`DISCONNECTED=0`, then successive increments). -/
def Type'.ord : Type' → Int
  | .DISCONNECTED => 0
  | .CONNECTED => 1
  | .RECONNECTING => 2
  | .RESOLVE => 3
  | .WAIT => 4
  | .WAIT_PROXY => 5
  | .CONNECTING => 6
  | .GET_CONFIG => 7
  | .ASSIGN_IP => 8
  | .ADD_ROUTES => 9
  | .PAUSE => 10
  | .RESUME => 11
  | .AUTH_FAILED => 12
  | .CERT_VERIFY_FAIL => 13
  | .CLIENT_HALT => 14
  | .CLIENT_RESTART => 15
  | .CONNECTION_TIMEOUT => 16
  | .INACTIVE_TIMEOUT => 17
  | .DYNAMIC_CHALLENGE => 18
  | .PROXY_NEED_CREDS => 19
  | .PROXY_ERROR => 20
  | .TUN_SETUP_FAILED => 21
  | .TUN_IFACE_CREATE => 22
  | .EPKI_ERROR => 23
  | .EPKI_INVALID_ALIAS => 24

/-- The enumerator `N_TYPES` of the C++ enum: the count of declared kinds. -/
def N_TYPES : Int := 25

/-- The enumerator `ERROR_START = AUTH_FAILED` of `clievent.hpp`. -/
def ERROR_START : Int := Type'.ord .AUTH_FAILED

/-- The static table `names[]` inside `event_name`, in declaration order. -/
def names : List String :=
  ["DISCONNECTED",
   "CONNECTED",
   "RECONNECTING",
   "RESOLVE",
   "WAIT",
   "WAIT_PROXY",
   "CONNECTING",
   "GET_CONFIG",
   "ASSIGN_IP",
   "ADD_ROUTES",
   "PAUSE",
   "RESUME",
   "AUTH_FAILED",
   "CERT_VERIFY_FAIL",
   "CLIENT_HALT",
   "CLIENT_RESTART",
   "CONNECTION_TIMEOUT",
   "INACTIVE_TIMEOUT",
   "DYNAMIC_CHALLENGE",
   "PROXY_NEED_CREDS",
   "PROXY_ERROR",
   "TUN_SETUP_FAILED",
   "TUN_IFACE_CREATE",
   "EPKI_ERROR",
   "EPKI_INVALID_ALIAS"]

/-- `event_name` of `clievent.hpp`:
`if (type < N_TYPES) return names[type]; else return "UNKNOWN_EVENT_TYPE";`.
The input is the raw ordinal.  The C++ guard checks only the upper bound,
so for a negative ordinal the indexing expression `names[type]` is an
out-of-bounds array read; we model that undefined access as `none`. -/
def event_name (type : Int) : Option String :=
  if type < N_TYPES then
    if 0 ≤ type then names[type.toNat]? else none
  else
    some "UNKNOWN_EVENT_TYPE"

/-- The `Connected` payload: the nine `std::string` fields of
`struct Connected`, in declaration order. -/
structure Connected where
  user : String
  server_host : String
  server_port : String
  server_proto : String
  server_ip : String
  vpn_ip4 : String
  vpn_ip6 : String
  client_ip : String
  tun_name : String
  deriving DecidableEq, Repr

/-- `Connected::render`:
`out << user << '@' << server_host << ':' << server_port
    << " (" << server_ip << ") via " << client_ip << '/' << server_proto
    << " on " << tun_name << '/' << vpn_ip4 << '/' << vpn_ip6;`. -/
def Connected.render (c : Connected) : String :=
  c.user ++ "@" ++ c.server_host ++ ":" ++ c.server_port
    ++ " (" ++ c.server_ip ++ ") via " ++ c.client_ip ++ "/" ++ c.server_proto
    ++ " on " ++ c.tun_name ++ "/" ++ c.vpn_ip4 ++ "/" ++ c.vpn_ip6

/-- The closed hierarchy of event subclasses of `Base`, as a tagged union:
one constructor per concrete `struct` in `clievent.hpp`.  The empty-payload
structs carry no data, `Connected` carries its nine-field payload, and each
`ReasonBase` subclass carries its `reason` string. -/
inductive Event where
  | Resolve
  | Wait
  | WaitProxy
  | Connecting
  | Reconnecting
  | GetConfig
  | AssignIP
  | AddRoutes
  | Pause
  | Resume
  | Disconnected
  | ConnectionTimeout
  | InactiveTimeout
  | Connected (c : ClientEvent.Connected)
  | AuthFailed (reason : String)
  | CertVerifyFail (reason : String)
  | ClientHalt (reason : String)
  | ClientRestart (reason : String)
  | DynamicChallenge (reason : String)
  | ProxyError (reason : String)
  | ProxyNeedCreds (reason : String)
  | TunSetupFailed (reason : String)
  | TunIfaceCreate (reason : String)
  | EpkiError (reason : String)
  | EpkiInvalidAlias (reason : String)
  deriving DecidableEq, Repr

/-- The stored kind `id_` of each event, as fixed by each subclass
constructor (`Resolve() : Base(RESOLVE)`, `AuthFailed(r) :
ReasonBase(AUTH_FAILED, r)`, and so on). -/
def Event.id : Event → Type'
  | .Resolve => .RESOLVE
  | .Wait => .WAIT
  | .WaitProxy => .WAIT_PROXY
  | .Connecting => .CONNECTING
  | .Reconnecting => .RECONNECTING
  | .GetConfig => .GET_CONFIG
  | .AssignIP => .ASSIGN_IP
  | .AddRoutes => .ADD_ROUTES
  | .Pause => .PAUSE
  | .Resume => .RESUME
  | .Disconnected => .DISCONNECTED
  | .ConnectionTimeout => .CONNECTION_TIMEOUT
  | .InactiveTimeout => .INACTIVE_TIMEOUT
  | .Connected _ => .CONNECTED
  | .AuthFailed _ => .AUTH_FAILED
  | .CertVerifyFail _ => .CERT_VERIFY_FAIL
  | .ClientHalt _ => .CLIENT_HALT
  | .ClientRestart _ => .CLIENT_RESTART
  | .DynamicChallenge _ => .DYNAMIC_CHALLENGE
  | .ProxyError _ => .PROXY_ERROR
  | .ProxyNeedCreds _ => .PROXY_NEED_CREDS
  | .TunSetupFailed _ => .TUN_SETUP_FAILED
  | .TunIfaceCreate _ => .TUN_IFACE_CREATE
  | .EpkiError _ => .EPKI_ERROR
  | .EpkiInvalidAlias _ => .EPKI_INVALID_ALIAS

/-- `Base::name`: `return event_name(id_);`. -/
def Event.name (e : Event) : Option String :=
  event_name e.id.ord

/-- `Base::is_error`: `return int(id_) >= ERROR_START;`. -/
def Event.is_error (e : Event) : Bool :=
  ERROR_START ≤ e.id.ord

/-- Virtual `render`: the `Base` default returns `""`; `Connected`
overrides with its composed string; every `ReasonBase` subclass
overrides with the stored `reason`. -/
def Event.render : Event → String
  | .Connected c => c.render
  | .AuthFailed r => r
  | .CertVerifyFail r => r
  | .ClientHalt r => r
  | .ClientRestart r => r
  | .DynamicChallenge r => r
  | .ProxyError r => r
  | .ProxyNeedCreds r => r
  | .TunSetupFailed r => r
  | .TunIfaceCreate r => r
  | .EpkiError r => r
  | .EpkiInvalidAlias r => r
  | _ => ""

/-- `Base::connected_cast`: `if (id_ == CONNECTED) return (const
Connected*)this; else return NULL;`.  The guard is the `id_` comparison;
when it holds, the pointer cast extracts the `Connected` payload (only
the `Connected` subclass is ever constructed with kind `CONNECTED`, so
the inner non-`Connected` case is unreachable). -/
def Event.connected_cast (e : Event) : Option ClientEvent.Connected :=
  if e.id = .CONNECTED then
    match e with
    | .Connected c => some c
    | _ => none
  else
    none

/-- The per-kind display strings as the specification lists them (its name
table, stating one fixed string per declared kind).  This is the
specification-side table, written from the spec's words; it is compared
against the code's array-indexing `event_name` in the theorem for C3. -/
def specDisplayName : Type' → String
  | .DISCONNECTED => "DISCONNECTED"
  | .CONNECTED => "CONNECTED"
  | .RECONNECTING => "RECONNECTING"
  | .RESOLVE => "RESOLVE"
  | .WAIT => "WAIT"
  | .WAIT_PROXY => "WAIT_PROXY"
  | .CONNECTING => "CONNECTING"
  | .GET_CONFIG => "GET_CONFIG"
  | .ASSIGN_IP => "ASSIGN_IP"
  | .ADD_ROUTES => "ADD_ROUTES"
  | .PAUSE => "PAUSE"
  | .RESUME => "RESUME"
  | .AUTH_FAILED => "AUTH_FAILED"
  | .CERT_VERIFY_FAIL => "CERT_VERIFY_FAIL"
  | .CLIENT_HALT => "CLIENT_HALT"
  | .CLIENT_RESTART => "CLIENT_RESTART"
  | .CONNECTION_TIMEOUT => "CONNECTION_TIMEOUT"
  | .INACTIVE_TIMEOUT => "INACTIVE_TIMEOUT"
  | .DYNAMIC_CHALLENGE => "DYNAMIC_CHALLENGE"
  | .PROXY_NEED_CREDS => "PROXY_NEED_CREDS"
  | .PROXY_ERROR => "PROXY_ERROR"
  | .TUN_SETUP_FAILED => "TUN_SETUP_FAILED"
  | .TUN_IFACE_CREATE => "TUN_IFACE_CREATE"
  | .EPKI_ERROR => "EPKI_ERROR"
  | .EPKI_INVALID_ALIAS => "EPKI_INVALID_ALIAS"

/-- C1: for every declared event kind, `is_error` returns true iff the
kind's ordinal is at least the ordinal of `AUTH_FAILED`; it is true
exactly on {AUTH_FAILED..EPKI_INVALID_ALIAS} and false exactly on
{DISCONNECTED..RESUME}. -/
theorem is_error_iff_ord_ge_auth_failed :
    ∀ e : Event,
      (e.is_error = true ↔ Type'.ord .AUTH_FAILED ≤ e.id.ord) ∧
      (e.is_error = true ↔ e.id ∈
        ([.AUTH_FAILED, .CERT_VERIFY_FAIL, .CLIENT_HALT, .CLIENT_RESTART,
          .CONNECTION_TIMEOUT, .INACTIVE_TIMEOUT, .DYNAMIC_CHALLENGE,
          .PROXY_NEED_CREDS, .PROXY_ERROR, .TUN_SETUP_FAILED,
          .TUN_IFACE_CREATE, .EPKI_ERROR, .EPKI_INVALID_ALIAS] : List Type')) ∧
      (e.is_error = false ↔ e.id ∈
        ([.DISCONNECTED, .CONNECTED, .RECONNECTING, .RESOLVE, .WAIT,
          .WAIT_PROXY, .CONNECTING, .GET_CONFIG, .ASSIGN_IP, .ADD_ROUTES,
          .PAUSE, .RESUME] : List Type')) := by
  intro e
  cases e <;> simp [Event.is_error, Event.id, Type'.ord, ERROR_START]

/-- C2: `Connected::render` is exactly the in-order concatenation of the
nine fields with the fixed separator tokens, and on the spec's example
fields it produces exactly the spec's example string. -/
theorem connected_render_format :
    (∀ c : Connected, (Event.Connected c).render =
      c.user ++ "@" ++ c.server_host ++ ":" ++ c.server_port
        ++ " (" ++ c.server_ip ++ ") via " ++ c.client_ip ++ "/" ++ c.server_proto
        ++ " on " ++ c.tun_name ++ "/" ++ c.vpn_ip4 ++ "/" ++ c.vpn_ip6) ∧
    (Event.Connected
      { user := "alice", server_host := "vpn.example.com", server_port := "443",
        server_proto := "TCPv4", server_ip := "203.0.113.5", vpn_ip4 := "10.8.0.2",
        vpn_ip6 := "", client_ip := "198.51.100.9", tun_name := "tun0" }).render =
      "alice@vpn.example.com:443 (203.0.113.5) via 198.51.100.9/TCPv4 on tun0/10.8.0.2/" :=
  ⟨fun _ => rfl, by decide⟩

/-- C3: for every declared kind, `event_name` at the kind's ordinal yields
that kind's fixed display string (the spec's name table), and for every
ordinal at least `N_TYPES = 25`, `event_name` yields
"UNKNOWN_EVENT_TYPE". -/
theorem event_name_table_correct :
    (∀ k : Type', event_name k.ord = some (specDisplayName k)) ∧
    (∀ n : Int, N_TYPES ≤ n → event_name n = some "UNKNOWN_EVENT_TYPE") := by
  constructor
  · intro k
    cases k <;> rfl
  · intro n hn
    simp only [N_TYPES] at hn
    simp [event_name, N_TYPES]
    omega

/-- Witness for C3: the theorem applied at the in-range kind `PAUSE` and
at the out-of-range ordinals 25 and 100. -/
theorem event_name_table_correct_witness :
    event_name (Type'.ord .PAUSE) = some "PAUSE" ∧
    event_name 25 = some "UNKNOWN_EVENT_TYPE" ∧
    event_name 100 = some "UNKNOWN_EVENT_TYPE" :=
  ⟨event_name_table_correct.1 .PAUSE,
   event_name_table_correct.2 25 (by decide),
   event_name_table_correct.2 100 (by decide)⟩

/-- C4 counterexample: at the ordinal -1 (below the declared range), the
guard `type < N_TYPES` is satisfied, so the table-indexing branch is taken
with an out-of-bounds index: `event_name` does not return the sentinel
"UNKNOWN_EVENT_TYPE" there, contradicting the claim that every
out-of-range ordinal, including ordinals below the range, yields the
sentinel. -/
theorem event_name_negative_counterexample :
    event_name (-1) = none ∧ event_name (-1) ≠ some "UNKNOWN_EVENT_TYPE" := by
  decide

/-- C4 amended: `name` is total only above the range: for every ordinal at
least `N_TYPES` it returns the sentinel "UNKNOWN_EVENT_TYPE"; the
table-indexing branch is taken for every ordinal below `N_TYPES`, and the
lookup is in bounds exactly when the ordinal is also nonnegative; for a
negative ordinal the lookup is out of bounds. -/
theorem event_name_amended_totality :
    ∀ n : Int,
      (N_TYPES ≤ n → event_name n = some "UNKNOWN_EVENT_TYPE") ∧
      (0 ≤ n → n < N_TYPES → (event_name n).isSome = true) ∧
      (n < 0 → event_name n = none) := by
  intro n
  refine ⟨fun hn => ?_, fun h0 hn => ?_, fun hn => ?_⟩
  · simp only [N_TYPES] at hn
    simp [event_name, N_TYPES]
    omega
  · simp only [N_TYPES] at hn
    have hlen : names.length = 25 := by decide
    have hlt : n.toNat < names.length := by omega
    simp [event_name, N_TYPES, hn, h0, List.getElem?_eq_getElem hlt]
  · have h1 : n < N_TYPES := by simp only [N_TYPES]; omega
    simp [event_name, h1, hn]

/-- Witness for C4's amended theorem: instantiated at the ordinals 30
(above the range), 3 (in range) and -2 (below the range). -/
theorem event_name_amended_totality_witness :
    event_name 30 = some "UNKNOWN_EVENT_TYPE" ∧
    (event_name 3).isSome = true ∧
    event_name (-2) = none :=
  ⟨(event_name_amended_totality 30).1 (by decide),
   (event_name_amended_totality 3).2.1 (by decide) (by decide),
   (event_name_amended_totality (-2)).2.2 (by decide)⟩

/-- C5: every Reason-payload variant renders its stored reason verbatim,
for every reason string; in particular `AuthFailed "bad password"` renders
exactly "bad password". -/
theorem reason_variants_render_verbatim :
    (∀ r : String,
      (Event.AuthFailed r).render = r ∧
      (Event.CertVerifyFail r).render = r ∧
      (Event.ClientHalt r).render = r ∧
      (Event.ClientRestart r).render = r ∧
      (Event.DynamicChallenge r).render = r ∧
      (Event.ProxyError r).render = r ∧
      (Event.ProxyNeedCreds r).render = r ∧
      (Event.TunSetupFailed r).render = r ∧
      (Event.TunIfaceCreate r).render = r ∧
      (Event.EpkiError r).render = r ∧
      (Event.EpkiInvalidAlias r).render = r) ∧
    (Event.AuthFailed "bad password").render = "bad password" :=
  ⟨fun _ => ⟨rfl, rfl, rfl, rfl, rfl, rfl, rfl, rfl, rfl, rfl, rfl⟩, rfl⟩

/-- C6: every Empty-payload variant renders as the empty string (the
inherited `Base::render` default). -/
theorem empty_variants_render_empty :
    Event.Resolve.render = "" ∧
    Event.Wait.render = "" ∧
    Event.WaitProxy.render = "" ∧
    Event.Connecting.render = "" ∧
    Event.Reconnecting.render = "" ∧
    Event.GetConfig.render = "" ∧
    Event.AssignIP.render = "" ∧
    Event.AddRoutes.render = "" ∧
    Event.Pause.render = "" ∧
    Event.Resume.render = "" ∧
    Event.Disconnected.render = "" ∧
    Event.ConnectionTimeout.render = "" ∧
    Event.InactiveTimeout.render = "" :=
  ⟨rfl, rfl, rfl, rfl, rfl, rfl, rfl, rfl, rfl, rfl, rfl, rfl, rfl⟩

/-- C7: narrowing with `connected_cast` yields a present view exactly when
the event's stored kind is `CONNECTED`, and on a `Connected` event it
yields exactly the nine-field payload. -/
theorem connected_cast_iff_kind_connected :
    (∀ e : Event, (e.connected_cast.isSome = true ↔ e.id = .CONNECTED)) ∧
    (∀ c : Connected, (Event.Connected c).connected_cast = some c) := by
  constructor
  · intro e
    cases e <;> simp [Event.connected_cast, Event.id]
  · intro c
    simp [Event.connected_cast, Event.id]

/-- C8: `ConnectionTimeout` and `InactiveTimeout` carry the Empty payload
and render as the empty string, yet both are classified as errors: their
ordinals lie at or above the ordinal of `AUTH_FAILED`. -/
theorem timeout_kinds_empty_render_but_error :
    Event.ConnectionTimeout.render = "" ∧
    Event.InactiveTimeout.render = "" ∧
    Event.ConnectionTimeout.is_error = true ∧
    Event.InactiveTimeout.is_error = true ∧
    Type'.ord .AUTH_FAILED ≤ Type'.ord .CONNECTION_TIMEOUT ∧
    Type'.ord .AUTH_FAILED ≤ Type'.ord .INACTIVE_TIMEOUT := by
  decide

/-- C9: the stored kind fully determines `name` and `is_error`: `name` is
`event_name` of the stored kind's ordinal and `is_error` is the threshold
comparison with `ERROR_START`; consequently any two events with the same
stored kind agree on `name` and `is_error`, whatever their payloads (in
the pure embedding every operation is a function of the event value, so
no operation can alter the stored kind). -/
theorem kind_determines_name_and_is_error :
    (∀ e : Event, e.name = event_name e.id.ord ∧
      e.is_error = decide (ERROR_START ≤ e.id.ord)) ∧
    (∀ e₁ e₂ : Event, e₁.id = e₂.id →
      e₁.name = e₂.name ∧ e₁.is_error = e₂.is_error) := by
  refine ⟨fun e => ⟨rfl, rfl⟩, fun e₁ e₂ h => ⟨?_, ?_⟩⟩ <;>
    simp only [Event.name, Event.is_error, h]

/-- Witness for C9: two `AuthFailed` events with different payloads share
the stored kind, hence share `name` and `is_error`. -/
theorem kind_determines_name_and_is_error_witness :
    (Event.AuthFailed "pw rejected").name = (Event.AuthFailed "other").name ∧
    (Event.AuthFailed "pw rejected").is_error = (Event.AuthFailed "other").is_error :=
  kind_determines_name_and_is_error.2
    (Event.AuthFailed "pw rejected") (Event.AuthFailed "other") rfl

/-- C10: a `Connected` event never renders as the empty string (its length
is positive since the fixed separator tokens are emitted unconditionally);
with all nine fields empty it renders exactly the separator skeleton. -/
theorem connected_render_never_empty :
    (∀ c : Connected, 0 < (Event.Connected c).render.length) ∧
    (Event.Connected
      { user := "", server_host := "", server_port := "", server_proto := "",
        server_ip := "", vpn_ip4 := "", vpn_ip6 := "", client_ip := "",
        tun_name := "" }).render = "@: () via / on //" := by
  constructor
  · intro c
    have h1 : ("@" : String).length = 1 := rfl
    simp only [Event.render, Connected.render, String.length_append, h1]
    omega
  · decide

end ClientEvent
